import Mathlib

/-!
Verification of the Belize Travel Buddy scrape-paginate-normalize-cache
pipeline.  The definitions below are a shallow embedding of the scraper found
in the Express server (`server.js`) and the Next.js route handler
(`app/api/operators/route.ts`), which contain the same logic, plus the legacy
client prototype (`prototype/api.js`) whose field-normalizer functions differ.

Modelling conventions:
* JavaScript strings are Lean `String`; `toLowerCase` is `jsToLower`,
  `includes` is `strIncludes`, and `trim` is `jsTrim`.
* `Math.random()` is exposed as an explicit argument: a natural number for the
  id suffix (`Math.floor(Math.random() * 1000)` is `r % 1000`) and a rational
  in `[0, 1)` for the rating.
* The remote source is a page-indexed function `Nat -> Except String Page`;
  a `.error` models a connection error or non-success status (axios throws).
  Request construction (cookies, viewstate form fields, headers) only affects
  the bytes sent on the wire, never the control flow or the extracted data, so
  it is absorbed into the source function.
* Wall-clock times (`Date.now()`) are integers in milliseconds, passed in
  explicitly: one reading for the cache check and one for the cache store.
-/

namespace BelizeTravelBuddy

/-- Scan used by `strIncludes`: does the list `n` occur as a contiguous
segment of the second list?  Mirrors the left-to-right search performed by
the JavaScript `String.prototype.includes`. -/
def includesAux (n : List Char) : List Char → Bool
  | [] => n.isEmpty
  | c :: t => if n.isPrefixOf (c :: t) then true else includesAux n t

/-- Model of the JavaScript `hay.includes(needle)` substring test. -/
def strIncludes (hay needle : String) : Bool :=
  includesAux needle.toList hay.toList

/-- Model of the JavaScript `s.toLowerCase()` (ASCII case mapping, which
covers every keyword the scraper tests). -/
def jsToLower (s : String) : String :=
  (s.toList.map Char.toLower).asString

/-- Characters removed by the JavaScript `String.prototype.trim` (the ASCII
whitespace actually occurring in scraped cell text). -/
def isJsSpace (c : Char) : Bool :=
  c == ' ' || c == '\t' || c == '\n' || c == '\r'

/-- Model of the JavaScript `s.trim()`. -/
def jsTrim (s : String) : String :=
  (((s.toList.dropWhile isJsSpace).reverse.dropWhile isJsSpace).reverse).asString

namespace Server

/-- Embeds `generateId` from the server scraper:
the lower-cased name with every character outside `[a-z0-9]` removed and
truncated to ten characters, followed by the
decimal rendering of `Math.floor(Math.random() * 1000)`.  The random draw is
the argument `r`, reduced modulo 1000 exactly as the source bounds it. -/
def generateId (name : String) (r : ℕ) : String :=
  (((jsToLower name).toList.filter fun c => c.isLower || c.isDigit).take 10).asString
    ++ toString (r % 1000)

/-- Embeds `extractDistrict` from the server scraper: the guard for a falsy
(empty) address, then the fixed keyword chain, first match wins, with the
final fallback `"Belize"`. -/
def extractDistrict (address : String) : String :=
  if address = "" then "Belize"
  else if strIncludes (jsToLower address) "cayo" || strIncludes (jsToLower address) "san ignacio"
      || strIncludes (jsToLower address) "santa elena" || strIncludes (jsToLower address) "benque"
      || strIncludes (jsToLower address) "bullet tree" then "Cayo"
  else if strIncludes (jsToLower address) "stann" || strIncludes (jsToLower address) "placencia"
      || strIncludes (jsToLower address) "dangriga" || strIncludes (jsToLower address) "hopkins"
      then "Stann Creek"
  else if strIncludes (jsToLower address) "corozal" then "Corozal"
  else if strIncludes (jsToLower address) "orange walk" then "Orange Walk"
  else if strIncludes (jsToLower address) "toledo" || strIncludes (jsToLower address) "punta gorda"
      then "Toledo"
  else if strIncludes (jsToLower address) "san pedro" || strIncludes (jsToLower address) "ambergris"
      || strIncludes (jsToLower address) "caye caulker" || strIncludes (jsToLower address) "belize city"
      || strIncludes (jsToLower address) "ladyville" then "Belize"
  else "Belize"

/-- Every keyword the server scraper's `extractDistrict` tests, in source
order: the district names and the settlement names mapped to districts. -/
def serverDistrictKeywords : List String :=
  ["cayo", "san ignacio", "santa elena", "benque", "bullet tree", "stann", "placencia",
   "dangriga", "hopkins", "corozal", "orange walk", "toledo", "punta gorda", "san pedro",
   "ambergris", "caye caulker", "belize city", "ladyville"]

/-- The gazetteer array iterated by `extractLocation` in the server scraper. -/
def serverLocations : List String :=
  ["San Pedro", "Caye Caulker", "San Ignacio", "Santa Elena", "Benque", "Placencia",
   "Hopkins", "Dangriga", "Belize City", "Ladyville", "Corozal", "Orange Walk", "Punta Gorda"]

/-- Embeds `extractLocation` from the server scraper: first gazetteer entry
whose lower-cased form occurs in the lower-cased address, else `"Belize"`. -/
def extractLocation (address : String) : String :=
  if address = "" then "Belize"
  else
    match serverLocations.find? (fun loc => strIncludes (jsToLower address) (jsToLower loc)) with
    | some loc => loc
    | none => "Belize"

/-- Embeds `categorizeOperator` from the server scraper: fixed keyword groups
tested in source order against the lower-cased name. -/
def categorizeOperator (name : String) : String :=
  if name = "" then "General"
  else if strIncludes (jsToLower name) "dive" || strIncludes (jsToLower name) "scuba"
      || strIncludes (jsToLower name) "sea" || strIncludes (jsToLower name) "snork" then "Diving"
  else if strIncludes (jsToLower name) "maya" || strIncludes (jsToLower name) "ruin"
      || strIncludes (jsToLower name) "archaeolog" then "Mayan Tours"
  else if strIncludes (jsToLower name) "adventure" || strIncludes (jsToLower name) "cave"
      || strIncludes (jsToLower name) "zip" || strIncludes (jsToLower name) "jungle" then "Adventure"
  else if strIncludes (jsToLower name) "fish" then "Fishing"
  else if strIncludes (jsToLower name) "resort" || strIncludes (jsToLower name) "hotel"
      || strIncludes (jsToLower name) "lodge" then "Resort"
  else if strIncludes (jsToLower name) "rent" || strIncludes (jsToLower name) "golf cart" then "Rentals"
  else "General"

/-- Embeds `estimatePriceRange` from the server scraper. -/
def estimatePriceRange (name : String) : String :=
  if strIncludes (jsToLower name) "luxury" || strIncludes (jsToLower name) "resort"
      || strIncludes (jsToLower name) "heli" || strIncludes (jsToLower name) "private" then "$$$"
  else if strIncludes (jsToLower name) "dive" || strIncludes (jsToLower name) "adventure" then "$$"
  else "$"

/-- Value, in tenths, of the string produced by
`(4.2 + Math.random() * 0.8).toFixed(1)`: the argument `r` is the draw of
`Math.random()`, and `toFixed(1)` rounds to the nearest tenth. -/
def ratingTenths (r : ℚ) : ℤ :=
  round (((42 : ℚ) / 10 + r * (8 / 10)) * 10)

/-- Embeds `generateRating` from the server scraper, as the rational value
that parsing the returned fixed-point decimal string recovers. -/
def generateRating (r : ℚ) : ℚ :=
  (ratingTenths r : ℚ) / 10

/-- The nested `address` object of an operator record. -/
structure OperatorAddress where
  full : String
  district : String
  deriving DecidableEq, Repr

/-- The `OperatorData` record built by `extractOperatorsFromTable`, named as
in the Next.js route handler. -/
structure OperatorData where
  id : String
  name : String
  phone : String
  address : OperatorAddress
  email : String
  website : String
  district : String
  location : String
  category : String
  priceRange : String
  rating : ℚ
  deriving DecidableEq, Repr

/-- Text of the `i`-th cell of a row, trimmed; a missing cell reads as the
empty string, exactly as `$(tds[i]).text()` does for an absent element. -/
def cellText (cells : List String) (i : ℕ) : String :=
  jsTrim (cells.getD i "")

/-- Embeds the per-row body of `extractOperatorsFromTable`: rows with fewer
than four cells are skipped, as are rows whose trimmed first cell is empty,
exactly `"Name"`, or contains `"Company Name"`; every other row produces one
record.  `rId` and `rRating` are the two `Math.random()` draws consumed by
`generateId` and `generateRating`. -/
def extractRow (cells : List String) (rId : ℕ) (rRating : ℚ) : Option OperatorData :=
  if cells.length < 4 then none
  else if cellText cells 0 = "" ∨ cellText cells 0 = "Name"
      ∨ strIncludes (cellText cells 0) "Company Name" = true then none
  else
    some
      { id := generateId (cellText cells 0) rId
        name := cellText cells 0
        phone := cellText cells 1
        address :=
          { full := cellText cells 2
            district := extractDistrict (cellText cells 2) }
        email := cellText cells 3
        website := cellText cells 4
        district := extractDistrict (cellText cells 2)
        location := extractLocation (cellText cells 2)
        category := categorizeOperator (cellText cells 0)
        priceRange := estimatePriceRange (cellText cells 0)
        rating := generateRating rRating }

/-- Embeds `extractOperatorsFromTable`: every table row of the page is offered
to `extractRow`; `rnd` supplies the two random draws for each row index. -/
def extractOperatorsFromTable (rows : List (List String)) (rnd : ℕ → ℕ × ℚ) :
    List OperatorData :=
  rows.enum.filterMap fun p => extractRow p.2 (rnd p.1).1 (rnd p.1).2

/-- One fetched page, as the walker observes it: its table rows, and for each
requested page number `m` the outcome of the search for an anchor whose href
contains `Page$m` — `none` when no such anchor exists, `some none` when the
anchor exists but its href does not match the `__doPostBack` pattern, and
`some (some (target, argument))` when it parses. -/
structure Page where
  rows : List (List String)
  next : ℕ → Option (Option (String × String))

/-- Outcome of one walk: the thrown error or the accumulated records, together
with the number of HTTP requests issued (a failing request counts) and the
number of pages whose table was extracted. -/
structure WalkResult where
  result : Except String (List OperatorData)
  fetches : ℕ
  pagesExtracted : ℕ
  deriving Repr

/-- Embeds the `while (hasNextPage)` loop of `scrapeAllPages`.  On entry the
current page (already fetched and counted) is extracted and appended; then the
`Page$(pageCount+1)` anchor is looked up: if it parses, the next page is
requested — a network failure aborts the whole walk, discarding the
accumulator — `pageCount` is incremented and the safety check `pageCount > 15`
decides whether to continue; if the anchor is missing or unparsable the walk
ends normally. -/
def scrapeLoop (src : ℕ → Except String Page) (rnd : ℕ → ℕ → ℕ × ℚ)
    (page : Page) (pageCount : ℕ) (acc : List OperatorData)
    (fetches : ℕ) (pagesExtracted : ℕ) : WalkResult :=
  match page.next (pageCount + 1) with
  | some (some _) =>
      match src (pageCount + 1) with
      | Except.error e => ⟨Except.error e, fetches + 1, pagesExtracted + 1⟩
      | Except.ok page2 =>
          if h : pageCount + 1 > 15 then
            ⟨Except.ok (acc ++ extractOperatorsFromTable page.rows (rnd pageCount)),
              fetches + 1, pagesExtracted + 1⟩
          else
            scrapeLoop src rnd page2 (pageCount + 1)
              (acc ++ extractOperatorsFromTable page.rows (rnd pageCount))
              (fetches + 1) (pagesExtracted + 1)
  | _ =>
      ⟨Except.ok (acc ++ extractOperatorsFromTable page.rows (rnd pageCount)),
        fetches, pagesExtracted + 1⟩
termination_by 15 - pageCount
decreasing_by omega

/-- Embeds `scrapeAllPages`: the initial GET fetches page 1 (one request),
then the pagination loop runs with `pageCount = 1`. -/
def scrapeAllPages (src : ℕ → Except String Page) (rnd : ℕ → ℕ → ℕ × ℚ) : WalkResult :=
  match src 1 with
  | Except.error e => ⟨Except.error e, 1, 0⟩
  | Except.ok page1 => scrapeLoop src rnd page1 1 [] 1 0

/-- The module-level cache of the endpoint: `cachedOperators` (null until the
first successful walk) and `lastCacheTime`. -/
structure CacheState where
  cachedOperators : Option (List OperatorData)
  lastCacheTime : ℤ
  deriving DecidableEq, Repr

/-- `CACHE_DURATION = 1000 * 60 * 60`, one hour in milliseconds. -/
def CACHE_DURATION : ℤ := 1000 * 60 * 60

/-- The guard `cachedOperators && (Date.now() - lastCacheTime < CACHE_DURATION)`:
an array (even an empty one) is truthy, null is falsy. -/
def cacheHit (st : CacheState) (now : ℤ) : Bool :=
  st.cachedOperators.isSome && decide (now - st.lastCacheTime < CACHE_DURATION)

/-- The body of the operators endpoint, either the success shape
`{success, count, data, cached}` or the catch-clause shape
`{success: false, message, error}`. -/
inductive ApiResponse where
  | success (count : ℕ) (data : List OperatorData) (cached : Bool)
  | failure (message : String) (error : String)
  deriving DecidableEq, Repr

/-- Embeds the `GET /api/operators` handler.  `tCheck` is the `Date.now()`
reading used by the cache guard and `tSet` the later reading stored after a
successful walk.  Returns the cache state after the call, the response body,
and the number of network requests the call performed (zero on a cache hit). -/
def getOperators (st : CacheState) (tCheck tSet : ℤ)
    (src : ℕ → Except String Page) (rnd : ℕ → ℕ → ℕ × ℚ) :
    CacheState × ApiResponse × ℕ :=
  if cacheHit st tCheck then
    (st, ApiResponse.success (st.cachedOperators.getD []).length
      (st.cachedOperators.getD []) true, 0)
  else
    match (scrapeAllPages src rnd).result with
    | Except.ok ops =>
        (⟨some ops, tSet⟩, ApiResponse.success ops.length ops false,
          (scrapeAllPages src rnd).fetches)
    | Except.error e =>
        (st, ApiResponse.failure "Failed to fetch live data" e,
          (scrapeAllPages src rnd).fetches)

/-- Progress of one request through the handler: before its cache check,
suspended on `await scrapeAllPages()`, or responded. -/
inductive ReqPhase where
  | pending
  | awaitingWalk
  | finished
  deriving DecidableEq, Repr

/-- One request of the event-loop model: its phase and, once finished, its
response. -/
structure ReqState where
  phase : ReqPhase
  resp : Option ApiResponse
  deriving DecidableEq, Repr

/-- Two concurrent requests to the endpoint sharing the module-level cache.
`walksStarted` counts how many times `scrapeAllPages()` has been invoked. -/
structure TwoReqSys where
  cache : CacheState
  walksStarted : ℕ
  reqA : ReqState
  reqB : ReqState
  deriving DecidableEq, Repr

/-- Runs one request up to its next suspension point, atomically, as the
Node.js event loop does: a pending request performs the cache check and either
responds from the cache or starts a walk and suspends on its await; a
suspended request resumes with the walk result, stores it in the cache on
success, and responds.  `t` is the `Date.now()` reading of the step. -/
def runPhase (src : ℕ → Except String Page) (rnd : ℕ → ℕ → ℕ × ℚ) (t : ℤ)
    (cache : CacheState) (walks : ℕ) (r : ReqState) : CacheState × ℕ × ReqState :=
  match r.phase with
  | ReqPhase.pending =>
      if cacheHit cache t then
        (cache, walks,
          ⟨ReqPhase.finished,
            some (ApiResponse.success (cache.cachedOperators.getD []).length
              (cache.cachedOperators.getD []) true)⟩)
      else
        (cache, walks + 1, ⟨ReqPhase.awaitingWalk, none⟩)
  | ReqPhase.awaitingWalk =>
      match (scrapeAllPages src rnd).result with
      | Except.ok ops =>
          (⟨some ops, t⟩, walks,
            ⟨ReqPhase.finished, some (ApiResponse.success ops.length ops false)⟩)
      | Except.error e =>
          (cache, walks,
            ⟨ReqPhase.finished, some (ApiResponse.failure "Failed to fetch live data" e)⟩)
  | ReqPhase.finished => (cache, walks, r)

/-- Advances the chosen request (`false` selects request A, `true` request B)
by one atomic section, at time `ev.2`. -/
def stepSys (src : ℕ → Except String Page) (rnd : ℕ → ℕ → ℕ × ℚ)
    (sys : TwoReqSys) (ev : Bool × ℤ) : TwoReqSys :=
  if ev.1 then
    match runPhase src rnd ev.2 sys.cache sys.walksStarted sys.reqB with
    | (c, w, r) => ⟨c, w, sys.reqA, r⟩
  else
    match runPhase src rnd ev.2 sys.cache sys.walksStarted sys.reqA with
    | (c, w, r) => ⟨c, w, r, sys.reqB⟩

/-- Runs a whole interleaving schedule. -/
def runSchedule (src : ℕ → Except String Page) (rnd : ℕ → ℕ → ℕ × ℚ)
    (sched : List (Bool × ℤ)) (sys : TwoReqSys) : TwoReqSys :=
  sched.foldl (stepSys src rnd) sys

end Server

namespace Prototype

/-- The `districts` array of the prototype client (`prototype/api.js`). -/
def districts : List String :=
  ["Cayo", "Belize", "Orange Walk", "Corozal", "Stann Creek", "Toledo"]

/-- Embeds `extractDistrict` from the prototype client: the district array is
scanned first, then the settlement checks, and an unrecognized address yields
`"Unknown"`. -/
def extractDistrict (address : String) : String :=
  match districts.find? (fun d => strIncludes (jsToLower address) (jsToLower d)) with
  | some d => d
  | none =>
      if strIncludes (jsToLower address) "san ignacio" || strIncludes (jsToLower address) "santa elena"
          || strIncludes (jsToLower address) "benque" || strIncludes (jsToLower address) "bullet tree"
          then "Cayo"
      else if strIncludes (jsToLower address) "san pedro" || strIncludes (jsToLower address) "ambergris"
          then "Belize"
      else if strIncludes (jsToLower address) "placencia" || strIncludes (jsToLower address) "dangriga"
          || strIncludes (jsToLower address) "hopkins" then "Stann Creek"
      else "Unknown"

/-- Embeds `categorizeOperator` from the prototype client: lowercase category
tags, with the diving keyword group (which tests the fragment `"div"`) first. -/
def categorizeOperator (name : String) : String :=
  if strIncludes (jsToLower name) "div" || strIncludes (jsToLower name) "snorkel"
      || strIncludes (jsToLower name) "reef" || strIncludes (jsToLower name) "underwater"
      then "diving"
  else if strIncludes (jsToLower name) "mayan" || strIncludes (jsToLower name) "maya"
      || strIncludes (jsToLower name) "ruin" || strIncludes (jsToLower name) "cultural"
      then "mayan"
  else if strIncludes (jsToLower name) "resort" || strIncludes (jsToLower name) "hotel"
      || strIncludes (jsToLower name) "lodge" || strIncludes (jsToLower name) "spa"
      then "resort"
  else if strIncludes (jsToLower name) "adventure" || strIncludes (jsToLower name) "cave"
      || strIncludes (jsToLower name) "zip" || strIncludes (jsToLower name) "jungle"
      || strIncludes (jsToLower name) "expedition" then "adventure"
  else if strIncludes (jsToLower name) "fish" || strIncludes (jsToLower name) "angl" then "fishing"
  else if strIncludes (jsToLower name) "bird" || strIncludes (jsToLower name) "wildlife"
      || strIncludes (jsToLower name) "nature" then "nature"
  else "general"

/-- Value, in tenths, of the string produced by the prototype client's
`(4.0 + Math.random() * 1.0).toFixed(1)`: the argument `r` is the draw of
`Math.random()`, and `toFixed(1)` rounds to the nearest tenth. -/
def ratingTenths (r : ℚ) : ℤ :=
  round (((4 : ℚ) + r * 1) * 10)

/-- Embeds `generateRating` from the prototype client (`prototype/api.js`),
as the rational value that parsing the returned fixed-point decimal string
recovers. -/
def generateRating (r : ℚ) : ℚ :=
  (ratingTenths r : ℚ) / 10

end Prototype

/-! Concrete fixtures used by the witnesses and counterexamples. -/

/-- A page with no data rows and no pagination anchor. -/
def emptyPage : Server.Page := ⟨[], fun _ => none⟩

/-- A remote source serving a single empty page: the walk succeeds after the
initial GET. -/
def okSource : ℕ → Except String Server.Page := fun _ => Except.ok emptyPage

/-- A remote source whose every request fails at the network level. -/
def failSource : ℕ → Except String Server.Page := fun _ => Except.error "ECONNREFUSED"

/-- A remote source whose every page carries a parsable next-page anchor: the
adversarial source of the safety-bound scenario. -/
def alwaysNextSource : ℕ → Except String Server.Page :=
  fun _ => Except.ok ⟨[], fun _ => some (some ("GridView1", "Page"))⟩

/-- A fixed random source for concrete runs. -/
def rnd0 : ℕ → ℕ → ℕ × ℚ := fun _ _ => (0, 0)

/-- Two pending requests sharing an empty cache. -/
def sysInit : Server.TwoReqSys :=
  ⟨⟨none, 0⟩, 0, ⟨Server.ReqPhase.pending, none⟩, ⟨Server.ReqPhase.pending, none⟩⟩

/-- Helper: mapping two functions that agree on every element of a list gives
the same list. -/
theorem map_eq_of_mem_eq {α β : Type _} {l : List α} {f g : α → β}
    (h : ∀ a ∈ l, f a = g a) : l.map f = l.map g := by
  induction l with
  | nil => rfl
  | cons x t ih =>
      simp only [List.map_cons]
      rw [h x (by simp), ih fun a ha => h a (by simp [ha])]

/-- C1: after a first call whose walk succeeds and stores `ops`, a second call
whose cache check happens within `CACHE_DURATION` of the stored time returns
exactly the same collection `ops`, reports `cached := true`, performs zero
network requests, and leaves the cache state unchanged. -/
theorem c1_cache_hit_within_ttl (st : Server.CacheState) (t1c t1s t2c t2s : ℤ)
    (src1 src2 : ℕ → Except String Server.Page) (rnd1 rnd2 : ℕ → ℕ → ℕ × ℚ)
    (ops : List Server.OperatorData)
    (hmiss : Server.cacheHit st t1c = false)
    (hwalk : (Server.scrapeAllPages src1 rnd1).result = Except.ok ops)
    (httl : t2c - t1s < Server.CACHE_DURATION) :
    Server.getOperators st t1c t1s src1 rnd1 =
      (⟨some ops, t1s⟩, Server.ApiResponse.success ops.length ops false,
        (Server.scrapeAllPages src1 rnd1).fetches) ∧
    Server.getOperators ⟨some ops, t1s⟩ t2c t2s src2 rnd2 =
      (⟨some ops, t1s⟩, Server.ApiResponse.success ops.length ops true, 0) := by
  constructor
  · unfold Server.getOperators
    simp [hmiss, hwalk]
  · have hhit : Server.cacheHit ⟨some ops, t1s⟩ t2c = true := by
      simp [Server.cacheHit, httl]
    unfold Server.getOperators
    simp [hhit]

/-- Witness for C1 at a concrete one-page source. -/
theorem c1_witness :
    Server.getOperators ⟨none, 0⟩ 0 5 okSource rnd0 =
      (⟨some [], 5⟩, Server.ApiResponse.success 0 [] false,
        (Server.scrapeAllPages okSource rnd0).fetches) ∧
    Server.getOperators ⟨some [], 5⟩ 10 10 okSource rnd0 =
      (⟨some [], 5⟩, Server.ApiResponse.success 0 [] true, 0) := by
  have h := c1_cache_hit_within_ttl ⟨none, 0⟩ 0 5 10 10 okSource okSource rnd0 rnd0 []
    (by decide)
    (by simp [Server.scrapeAllPages, Server.scrapeLoop, okSource, emptyPage,
      Server.extractOperatorsFromTable])
    (by decide)
  simpa using h

/-- C2: when the cache misses and the walk fails at any fetch, the endpoint
answers with the structured failure body, which carries no operator records,
and the cache state (both `cachedOperators` and `lastCacheTime`) is returned
exactly as it was before the call: a previously cached collection is neither
evicted nor replaced. -/
theorem c2_failure_preserves_cache (st : Server.CacheState) (tc ts : ℤ)
    (src : ℕ → Except String Server.Page) (rnd : ℕ → ℕ → ℕ × ℚ) (e : String)
    (hmiss : Server.cacheHit st tc = false)
    (hfail : (Server.scrapeAllPages src rnd).result = Except.error e) :
    Server.getOperators st tc ts src rnd =
      (st, Server.ApiResponse.failure "Failed to fetch live data" e,
        (Server.scrapeAllPages src rnd).fetches) := by
  unfold Server.getOperators
  simp [hmiss, hfail]

/-- Witness for C2: an expired cache holding a stale collection survives a
failing walk untouched. -/
theorem c2_witness :
    Server.getOperators ⟨some [], 0⟩ 9999999 9999999 failSource rnd0 =
      (⟨some [], 0⟩, Server.ApiResponse.failure "Failed to fetch live data" "ECONNREFUSED",
        (Server.scrapeAllPages failSource rnd0).fetches) :=
  c2_failure_preserves_cache ⟨some [], 0⟩ 9999999 9999999 failSource rnd0 "ECONNREFUSED"
    (by decide) (by rfl)

/-- Helper for C3: while the safety bound has not tripped, a source whose
pages always carry a parsable next anchor drives the loop one full round per
page, adding one fetch and one extracted page each time. -/
theorem scrapeLoop_always_next (src : ℕ → Except String Server.Page)
    (rnd : ℕ → ℕ → ℕ × ℚ)
    (hsrc : ∀ n, ∃ page, src n = Except.ok page ∧ ∀ m, ∃ tq, page.next m = some (some tq)) :
    ∀ k, k ≤ 14 → ∀ pc, pc = 15 - k →
      ∀ page, (∀ m, ∃ tq, page.next m = some (some tq)) →
      ∀ acc f pg, ∃ ops,
        Server.scrapeLoop src rnd page pc acc f pg =
          ⟨Except.ok ops, f + k + 1, pg + k + 1⟩ := by
  intro k
  induction k with
  | zero =>
      intro _ pc hpc page hnext acc f pg
      obtain ⟨tq, hn⟩ := hnext (pc + 1)
      obtain ⟨page2, hs, _⟩ := hsrc (pc + 1)
      refine ⟨acc ++ Server.extractOperatorsFromTable page.rows (rnd pc), ?_⟩
      rw [Server.scrapeLoop.eq_def]
      simp only [hn, hs]
      rw [dif_pos (show pc + 1 > 15 by omega)]
  | succ k ih =>
      intro hk pc hpc page hnext acc f pg
      obtain ⟨tq, hn⟩ := hnext (pc + 1)
      obtain ⟨page2, hs, hnext2⟩ := hsrc (pc + 1)
      obtain ⟨ops, hops⟩ := ih (by omega) (pc + 1) (by omega) page2 hnext2
        (acc ++ Server.extractOperatorsFromTable page.rows (rnd pc)) (f + 1) (pg + 1)
      refine ⟨ops, ?_⟩
      rw [Server.scrapeLoop.eq_def]
      simp only [hn, hs]
      rw [dif_neg (show ¬ pc + 1 > 15 by omega)]
      rw [hops]
      have hf : f + 1 + k + 1 = f + (k + 1) + 1 := by omega
      have hg : pg + 1 + k + 1 = pg + (k + 1) + 1 := by omega
      rw [hf, hg]

/-- C3 counterexample: against a source whose every page has a valid next
anchor, the walk issues 16 HTTP requests, not the 15 the claim states — the
safety check runs only after the POST that fetches page 16. -/
theorem c3_counterexample :
    (Server.scrapeAllPages alwaysNextSource rnd0).fetches = 16 ∧
    (Server.scrapeAllPages alwaysNextSource rnd0).fetches ≠ 15 := by
  constructor <;>
    simp [Server.scrapeAllPages, Server.scrapeLoop, alwaysNextSource,
      Server.extractOperatorsFromTable, rnd0]

/-- C3 (amended): for every remote source whose pages each carry a parsable
next-page anchor indefinitely, the walk terminates without error after
exactly 16 fetches (one GET plus 15 POSTs) and extracts records from exactly
the first 15 pages; the 16th fetched page is dropped unextracted by the
safety bound. -/
theorem c3_sixteen_fetches (src : ℕ → Except String Server.Page)
    (rnd : ℕ → ℕ → ℕ × ℚ)
    (hsrc : ∀ n, ∃ page, src n = Except.ok page ∧ ∀ m, ∃ tq, page.next m = some (some tq)) :
    ∃ ops, Server.scrapeAllPages src rnd = ⟨Except.ok ops, 16, 15⟩ := by
  obtain ⟨page1, hs1, hn1⟩ := hsrc 1
  obtain ⟨ops, hloop⟩ :=
    scrapeLoop_always_next src rnd hsrc 14 (by omega) 1 (by omega) page1 hn1 [] 1 0
  refine ⟨ops, ?_⟩
  unfold Server.scrapeAllPages
  simp only [hs1]
  rw [hloop]

/-- Witness for C3 at the concrete always-next source. -/
theorem c3_witness :
    (Server.scrapeAllPages alwaysNextSource rnd0).fetches = 16 ∧
    (Server.scrapeAllPages alwaysNextSource rnd0).pagesExtracted = 15 := by
  obtain ⟨ops, h⟩ := c3_sixteen_fetches alwaysNextSource rnd0
    (fun n => ⟨⟨[], fun _ => some (some ("GridView1", "Page"))⟩, rfl,
      fun m => ⟨("GridView1", "Page"), rfl⟩⟩)
  rw [h]
  exact ⟨rfl, rfl⟩

/-- C4: the handler has no single-flight guard, so two concurrent requests
that both pass the cache check before either walk resolves each start their
own walk: the interleaving check-A, check-B, resume-A, resume-B against an
empty cache initiates 2 walks, not at most 1, and both requests finish. -/
theorem c4_two_walks_initiated :
    (Server.runSchedule okSource rnd0 [(false, 0), (true, 0), (false, 5), (true, 6)]
      sysInit).walksStarted = 2 ∧
    (Server.runSchedule okSource rnd0 [(false, 0), (true, 0), (false, 5), (true, 6)]
      sysInit).reqA.phase = Server.ReqPhase.finished ∧
    (Server.runSchedule okSource rnd0 [(false, 0), (true, 0), (false, 5), (true, 6)]
      sysInit).reqB.phase = Server.ReqPhase.finished := by
  refine ⟨?_, ?_, ?_⟩ <;>
    simp [Server.runSchedule, Server.stepSys, Server.runPhase, Server.cacheHit, sysInit,
      Server.scrapeAllPages, Server.scrapeLoop, Server.extractOperatorsFromTable,
      okSource, emptyPage, rnd0]

/-- C5 counterexample: two extractions of the very same row — hence the same
`(name, address)` — yield different `id` values when the random draw differs,
so `id` is not a pure function of `(name, address)`. -/
theorem c5_counterexample :
    (Server.extractRow ["Sun Tours", "123", "Belmopan", "info"] 0 (1 / 2)).map
      Server.OperatorData.id ≠
    (Server.extractRow ["Sun Tours", "123", "Belmopan", "info"] 1 (1 / 2)).map
      Server.OperatorData.id := by decide

/-- C5 (amended): every field except the synthetic `rating` and the random
numeric suffix of `id` is a pure function of the extracted row: two
extractions of the same row agree on every field other than `id` and
`rating`, and agree on `id` as well whenever the bounded random suffix
coincides. -/
theorem c5_deterministic_fields (cells : List String) (r1 r2 : ℕ) (q1 q2 : ℚ)
    (op1 op2 : Server.OperatorData)
    (h1 : Server.extractRow cells r1 q1 = some op1)
    (h2 : Server.extractRow cells r2 q2 = some op2) :
    op1.name = op2.name ∧ op1.phone = op2.phone ∧ op1.address = op2.address ∧
    op1.email = op2.email ∧ op1.website = op2.website ∧ op1.district = op2.district ∧
    op1.location = op2.location ∧ op1.category = op2.category ∧
    op1.priceRange = op2.priceRange ∧ (r1 % 1000 = r2 % 1000 → op1.id = op2.id) := by
  unfold Server.extractRow at h1 h2
  split_ifs at h1 h2
  have e1 := Option.some.inj h1
  have e2 := Option.some.inj h2
  subst e1
  subst e2
  refine ⟨rfl, rfl, rfl, rfl, rfl, rfl, rfl, rfl, rfl, ?_⟩
  intro hmod
  show Server.generateId (Server.cellText cells 0) r1 =
    Server.generateId (Server.cellText cells 0) r2
  unfold Server.generateId
  rw [hmod]

/-- Witness for C5 at a concrete row extracted twice with different draws. -/
theorem c5_witness :
    (Server.extractRow ["Sun Tours", "123", "Belmopan", "info"] 7 0).map
      Server.OperatorData.district =
    (Server.extractRow ["Sun Tours", "123", "Belmopan", "info"] 8 (1 / 2)).map
      Server.OperatorData.district := by
  cases hx : Server.extractRow ["Sun Tours", "123", "Belmopan", "info"] 7 0 with
  | none => exact absurd hx (by decide)
  | some op1 =>
      cases hy : Server.extractRow ["Sun Tours", "123", "Belmopan", "info"] 8 (1 / 2) with
      | none => exact absurd hy (by decide)
      | some op2 =>
          have h := c5_deterministic_fields _ 7 8 0 (1 / 2) op1 op2 hx hy
          simp [h.2.2.2.2.2.1]

/-- C6: a table row is silently discarded exactly when it has fewer than 4
cells, or its trimmed first cell is empty, is exactly `"Name"`, or contains
`"Company Name"`; every other row yields exactly one record, and a row with
exactly 4 cells (no 5th cell) gets an empty `website` instead of an error. -/
theorem c6_row_filter (cells : List String) (rId : ℕ) (rRating : ℚ) :
    (Server.extractRow cells rId rRating = none ↔
      cells.length < 4 ∨ Server.cellText cells 0 = "" ∨ Server.cellText cells 0 = "Name" ∨
        strIncludes (Server.cellText cells 0) "Company Name" = true) ∧
    ∀ op, Server.extractRow cells rId rRating = some op →
      cells.length = 4 → op.website = "" := by
  constructor
  · unfold Server.extractRow
    split_ifs with h1 h2
    · exact iff_of_true rfl (Or.inl h1)
    · exact iff_of_true rfl (Or.inr h2)
    · constructor
      · intro hc
        exact absurd hc (by simp)
      · intro hc
        rcases hc with hc | hc
        · exact absurd hc h1
        · exact absurd hc h2
  · intro op hop hlen
    unfold Server.extractRow at hop
    split_ifs at hop
    have e := Option.some.inj hop
    subst e
    show Server.cellText cells 4 = ""
    unfold Server.cellText
    rw [List.getD_eq_default]
    · rfl
    · omega

/-- Witness for C6: a header row is dropped, and a 4-cell data row yields a
record with an empty website. -/
theorem c6_witness :
    Server.extractRow ["Name", "111", "Some Addr", "mail"] 0 0 = none ∧
    (Server.extractRow ["Maya Tours", "111", "Some Addr", "mail"] 0 0).map
      Server.OperatorData.website = some "" := by
  constructor
  · exact (c6_row_filter ["Name", "111", "Some Addr", "mail"] 0 0).1.mpr (by decide)
  · cases hx : Server.extractRow ["Maya Tours", "111", "Some Addr", "mail"] 0 0 with
    | none =>
        have h := (c6_row_filter ["Maya Tours", "111", "Some Addr", "mail"] 0 0).1.mp hx
        exact absurd h (by decide)
    | some op =>
        have hw := (c6_row_filter ["Maya Tours", "111", "Some Addr", "mail"] 0 0).2 op hx rfl
        simp [hw]

/-- C7 counterexample: the prototype client also prioritizes its diving group,
but returns the lowercase tag `"diving"`, not `"Diving"`, for a name that
contains `"dive"` (and `"resort"`). -/
theorem c7_counterexample :
    strIncludes (jsToLower "Dive Resort") "dive" = true ∧
    Prototype.categorizeOperator "Dive Resort" ≠ "Diving" ∧
    Prototype.categorizeOperator "Dive Resort" = "diving" := by decide

/-- C7 (amended): in the server scraper, every name whose lower-cased form
contains `"dive"` is categorized `"Diving"`, even when the name also contains
`"resort"`, because the diving keyword group is tested first; the prototype
client returns its lowercase tag `"diving"` instead. -/
theorem c7_dive_priority (name : String)
    (h : strIncludes (jsToLower name) "dive" = true) :
    Server.categorizeOperator name = "Diving" := by
  by_cases hn : name = ""
  · subst hn
    exact absurd h (by decide)
  · unfold Server.categorizeOperator
    simp [hn, h]

/-- Witness for C7 at a name containing both `"dive"` and `"resort"`. -/
theorem c7_witness :
    strIncludes (jsToLower "Dive Resort") "dive" = true ∧
    Server.categorizeOperator "Dive Resort" = "Diving" :=
  ⟨by decide, c7_dive_priority "Dive Resort" (by decide)⟩

/-- C8 counterexample: the prototype client's `extractDistrict` returns
`"Unknown"`, not `"Belize"`, for an address with no recognized keyword. -/
theorem c8_counterexample :
    Prototype.extractDistrict "12 Main Street, Mexico" = "Unknown" ∧
    Prototype.extractDistrict "12 Main Street, Mexico" ≠ "Belize" := by decide

/-- C8 (amended): in the server scraper, `extractDistrict` maps every address
containing no recognized district or settlement keyword to the fallback
`"Belize"`, and never returns `"Unknown"` on any input; the prototype
client's version instead falls back to `"Unknown"`. -/
theorem c8_fallback_belize (address : String)
    (h : ∀ kw ∈ Server.serverDistrictKeywords, strIncludes (jsToLower address) kw = false) :
    Server.extractDistrict address = "Belize" ∧
      ∀ a : String, Server.extractDistrict a ≠ "Unknown" := by
  constructor
  · have h1 := h "cayo" (by simp [Server.serverDistrictKeywords])
    have h2 := h "san ignacio" (by simp [Server.serverDistrictKeywords])
    have h3 := h "santa elena" (by simp [Server.serverDistrictKeywords])
    have h4 := h "benque" (by simp [Server.serverDistrictKeywords])
    have h5 := h "bullet tree" (by simp [Server.serverDistrictKeywords])
    have h6 := h "stann" (by simp [Server.serverDistrictKeywords])
    have h7 := h "placencia" (by simp [Server.serverDistrictKeywords])
    have h8 := h "dangriga" (by simp [Server.serverDistrictKeywords])
    have h9 := h "hopkins" (by simp [Server.serverDistrictKeywords])
    have h10 := h "corozal" (by simp [Server.serverDistrictKeywords])
    have h11 := h "orange walk" (by simp [Server.serverDistrictKeywords])
    have h12 := h "toledo" (by simp [Server.serverDistrictKeywords])
    have h13 := h "punta gorda" (by simp [Server.serverDistrictKeywords])
    have h14 := h "san pedro" (by simp [Server.serverDistrictKeywords])
    have h15 := h "ambergris" (by simp [Server.serverDistrictKeywords])
    have h16 := h "caye caulker" (by simp [Server.serverDistrictKeywords])
    have h17 := h "belize city" (by simp [Server.serverDistrictKeywords])
    have h18 := h "ladyville" (by simp [Server.serverDistrictKeywords])
    by_cases ha : address = "" <;>
      simp [Server.extractDistrict, ha, h1, h2, h3, h4, h5, h6, h7, h8, h9, h10,
        h11, h12, h13, h14, h15, h16, h17, h18]
  · intro a
    unfold Server.extractDistrict
    split_ifs <;> decide

/-- Witness for C8 at an address with no recognized keyword. -/
theorem c8_witness :
    Server.extractDistrict "12 Main Street, Mexico" = "Belize" :=
  (c8_fallback_belize "12 Main Street, Mexico" (by decide)).1

/-- C9 counterexample: the prototype client's rating generator is
`(4.0 + Math.random() * 1.0).toFixed(1)`, so at the draw 0 — a value the
random source can approach — it returns `"4.0"`, which parses to 4.0,
outside the closed interval `[4.2, 5.0]`. -/
theorem c9_counterexample :
    Prototype.generateRating 0 = 4 ∧
    ¬ ((42 : ℚ) / 10 ≤ Prototype.generateRating 0) := by
  have h40 : Prototype.ratingTenths 0 = 40 := by
    unfold Prototype.ratingTenths
    rw [show (((4 : ℚ) + 0 * 1) * 10) = ((40 : ℤ) : ℚ) by norm_num]
    exact round_intCast 40
  have hval : Prototype.generateRating 0 = 4 := by
    unfold Prototype.generateRating
    rw [h40]
    norm_num
  refine ⟨hval, ?_⟩
  rw [hval]
  norm_num

/-- C9 (amended): in the server scraper, for every draw of the random source
in `[0, 1)`, the rating value — the float that parsing the returned
`toFixed(1)` string recovers — lies in the closed interval `[4.2, 5.0]`; the
prototype client's generator instead ranges over `[4.0, 5.0]` and can fall
below 4.2. -/
theorem c9_rating_range (r : ℚ) (h0 : 0 ≤ r) (h1 : r < 1) :
    (42 : ℚ) / 10 ≤ Server.generateRating r ∧ Server.generateRating r ≤ 5 := by
  have hx : Server.ratingTenths r = ⌊(42 : ℚ) + 8 * r + 1 / 2⌋ := by
    unfold Server.ratingTenths
    rw [round_eq]
    congr 1
    ring
  have hlb : (42 : ℤ) ≤ Server.ratingTenths r := by
    rw [hx, Int.le_floor]
    push_cast
    linarith
  have hub : Server.ratingTenths r ≤ 50 := by
    have hlt : Server.ratingTenths r < 51 := by
      rw [hx, Int.floor_lt]
      push_cast
      linarith
    omega
  have hlb2 : (42 : ℚ) ≤ (Server.ratingTenths r : ℚ) := by exact_mod_cast hlb
  have hub2 : (Server.ratingTenths r : ℚ) ≤ 50 := by exact_mod_cast hub
  unfold Server.generateRating
  constructor <;> linarith

/-- Witness for C9 at the draw 0. -/
theorem c9_witness :
    (42 : ℚ) / 10 ≤ Server.generateRating 0 ∧ Server.generateRating 0 ≤ 5 :=
  c9_rating_range 0 (by norm_num) (by norm_num)

/-- C10: every record the page extractor produces has its nested
`address.district` equal to its top-level `district` — both are the district
derivation of the same raw address cell. -/
theorem c10_district_consistency (rows : List (List String)) (rnd : ℕ → ℕ × ℚ)
    (op : Server.OperatorData) (h : op ∈ Server.extractOperatorsFromTable rows rnd) :
    op.address.district = op.district := by
  unfold Server.extractOperatorsFromTable at h
  rw [List.mem_filterMap] at h
  obtain ⟨p, _, hp⟩ := h
  unfold Server.extractRow at hp
  split_ifs at hp
  have e := Option.some.inj hp
  subst e
  rfl

/-- Witness for C10 at a concrete one-row page. -/
theorem c10_witness :
    (Server.extractOperatorsFromTable [["Maya Tours", "11", "San Pedro", "m"]]
      fun _ => (0, 0)).map (fun op => op.address.district) =
    (Server.extractOperatorsFromTable [["Maya Tours", "11", "San Pedro", "m"]]
      fun _ => (0, 0)).map (fun op => op.district) :=
  map_eq_of_mem_eq fun op h => c10_district_consistency _ _ op h


end BelizeTravelBuddy
